import Mathlib

/-
Verification of the TCGA-BRCA GDC data loader
(projects/001_tcga_brca_subtypes/src/data_loader.py).

The Python module is embedded shallowly:
* parsed JSON values become the inductive `Json`;
* Python exceptions become the inductive `PyErr`, and fallible code returns
  `Except PyErr`;
* the HTTP transport is an oracle (attempt index to outcome for the retrying
  query core; one `Except PyErr HttpResp` per URL for downloads);
* the local filesystem is a map from path to file content;
* pandas frames become `DataFrame` (column names plus string-cell rows).

All string operations used by the embedding are defined here by structural
recursion over the character list of a `String`, so that every definition
evaluates inside the kernel on concrete inputs.
-/

namespace TCGA

/-! ## Python-level values and errors -/

/-- A parsed JSON value (the result of `response.json()` in Python). -/
inductive Json where
  | null
  | bool (b : Bool)
  | num (n : Int)
  | str (s : String)
  | arr (xs : List Json)
  | obj (fields : List (String × Json))
deriving Repr

/-- The Python exception kinds the loader can raise or catch. -/
inductive PyErr where
  | valueError (msg : String)
  | typeError
  | keyError
  | attributeError
  | indexError
  | requestError (msg : String)
  | fileNotFound (msg : String)
  | parserError
deriving Repr, DecidableEq

/-! ## Kernel-computable string helpers (Python string operations) -/

/-- Whether the character list `l` starts with the pattern `pat`. -/
def chStarts : List Char → List Char → Bool
  | [], _ => true
  | _ :: _, [] => false
  | a :: pa, b :: lb => a == b && chStarts pa lb

/-- Whether the pattern `pat` occurs somewhere in the character list. -/
def chHas (pat : List Char) : List Char → Bool
  | [] => pat.isEmpty
  | b :: lb => chStarts pat (b :: lb) || chHas pat lb

/-- Python `pat in s` (substring membership). -/
def strContains (s pat : String) : Bool := chHas pat.toList s.toList

/-- Python `s.startswith(pat)`. -/
def strStarts (s pat : String) : Bool := chStarts pat.toList s.toList

/-- Split a character list at every occurrence of the character `c`. -/
def splitOnCharList (c : Char) (l : List Char) : List (List Char) :=
  l.foldr (fun x acc => if x == c then [] :: acc else (x :: acc.headD []) :: acc.tail) [[]]

/-- Python `s.split(c)` for a one-character separator. -/
def strSplitOnChar (c : Char) (s : String) : List String :=
  (splitOnCharList c s.toList).map String.mk

/-- Python `s.lower()` (ASCII is all the loader needs). -/
def strLower (s : String) : String := String.mk (s.toList.map Char.toLower)

/-- The whitespace characters removed by Python `str.strip()`. -/
def isSpaceChar (c : Char) : Bool :=
  c == ' ' || c == '\t' || c == '\n' || c == '\r' || c == '\x0b' || c == '\x0c'

/-- Python `s.strip()`. -/
def strStrip (s : String) : String :=
  String.mk (((s.toList.dropWhile isSpaceChar).reverse.dropWhile isSpaceChar).reverse)

/-! ## Python semantics on JSON values -/

/-- Python truthiness of a JSON value. -/
def truthy : Json → Bool
  | .null => false
  | .bool b => b
  | .num n => n != 0
  | .str s => !s.toList.isEmpty
  | .arr xs => !xs.isEmpty
  | .obj fields => !fields.isEmpty

/-- Python `key in j`: key membership for dicts, element membership for lists,
substring test for strings, `TypeError` otherwise. -/
def pyIn (key : String) : Json → Except PyErr Bool
  | .obj fields => .ok (List.lookup key fields).isSome
  | .arr xs => .ok (xs.any (fun j => match j with | .str s => s == key | _ => false))
  | .str s => .ok (strContains s key)
  | _ => .error .typeError

/-- Python `j[key]` on a dict (`KeyError` when absent, `TypeError` on non-dicts). -/
def pySub (j : Json) (key : String) : Except PyErr Json :=
  match j with
  | .obj fields =>
    match List.lookup key fields with
    | some v => .ok v
    | none => .error .keyError
  | _ => .error .typeError

/-- Python `j.get(key)` on a dict, defaulting to `None`; `AttributeError` when
`j` is not a dict. -/
def pyGet (j : Json) (key : String) : Except PyErr Json :=
  match j with
  | .obj fields => .ok ((List.lookup key fields).getD .null)
  | _ => .error .attributeError

/-- Python `j.get(key, d)` on a dict with an explicit default. -/
def pyGetD (j : Json) (key : String) (d : Json) : Except PyErr Json :=
  match j with
  | .obj fields => .ok ((List.lookup key fields).getD d)
  | _ => .error .attributeError

/-- Python `j[0]`: first element of a list or string (`IndexError` when empty,
`TypeError` on unsubscriptable values). -/
def pyIndex0 : Json → Except PyErr Json
  | .arr [] => .error .indexError
  | .arr (x :: _) => .ok x
  | .str s =>
    match s.toList with
    | [] => .error .indexError
    | ch :: _ => .ok (.str (String.mk [ch]))
  | _ => .error .typeError

/-- Python `len(j)` (`TypeError` on unsized values). -/
def pyLen : Json → Except PyErr Nat
  | .arr xs => .ok xs.length
  | .obj fields => .ok fields.length
  | .str s => .ok s.toList.length
  | _ => .error .typeError

/-- Python `for x in j`: the sequence of iterated values. -/
def pyIter : Json → Except PyErr (List Json)
  | .arr xs => .ok xs
  | .obj fields => .ok (fields.map (fun p => .str p.1))
  | .str s => .ok (s.toList.map (fun ch => .str (String.mk [ch])))
  | _ => .error .typeError

/-- Python `j.lower()` on a value expected to be a string. -/
def pyStrLower : Json → Except PyErr String
  | .str s => .ok (strLower s)
  | _ => .error .attributeError

/-! ## `_query_gdc`: retry with exponential backoff (source lines 24-39)

The HTTP transport is an oracle mapping the 0-based attempt index to either a
parsed JSON body (request succeeded, `raise_for_status` passed, body parsed) or
a `requests` transport error.  The function returns the Python return value
(`none` models the `None` produced by falling off the end of the loop when
`max_retries` is not positive), the number of attempts actually performed, and
the list of backoff sleeps, in seconds, in the order they happen. -/

def queryGdcAux (transport : Nat → Except PyErr Json) :
    Nat → Nat → Option (Except PyErr Json) × Nat × List Nat
  | _, 0 => (none, 0, [])
  | attempt, fuel + 1 =>
    match transport attempt with
    | .ok j => (some (.ok j), 1, [])
    | .error e =>
      if fuel = 0 then
        (some (.error e), 1, [])
      else
        let r := queryGdcAux transport (attempt + 1) fuel
        (r.1, r.2.1 + 1, 2 ^ attempt :: r.2.2)

/-- `_query_gdc(endpoint, params, max_retries)`.  The endpoint and params only
shape the URL and query string, which the transport oracle abstracts. -/
def query_gdc (transport : Nat → Except PyErr Json) (maxRetries : Nat) :
    Option (Except PyErr Json) × Nat × List Nat :=
  queryGdcAux transport 0 maxRetries

/-! ## Flattening of API hits -/

/-- One row of the file manifest (source lines 90-97).  Fields hold the JSON
value placed in the row dict; Python `None` is `Json.null`. -/
structure FileRecord where
  file_id : Json
  file_name : Json
  file_size : Json
  case_id : Json
  sample_id : Json
deriving Repr

/-- Flatten one hit of the `/files` endpoint (source lines 90-97), evaluating
the `.get` chains and conditionals in Python order. -/
def flattenFile (f : Json) : Except PyErr FileRecord := do
  let fid ← pyGet f "id"
  let fname ← pyGet f "file_name"
  let fsize ← pyGet f "file_size"
  let casesJ ← pyGet f "cases"
  let caseId ←
    if truthy casesJ then do
      let cs ← pyGetD f "cases" (.arr [.obj []])
      let c0 ← pyIndex0 cs
      pyGet c0 "case_id"
    else pure .null
  let casesJ2 ← pyGet f "cases"
  let cond2 ←
    if truthy casesJ2 then do
      let c0 ← pyIndex0 casesJ2
      let samples ← pyGet c0 "samples"
      pure (truthy samples)
    else pure false
  let sampleId ←
    if cond2 then do
      let cs ← pyGetD f "cases" (.arr [.obj []])
      let c0 ← pyIndex0 cs
      let ss ← pyGetD c0 "samples" (.arr [.obj []])
      let s0 ← pyIndex0 ss
      pyGet s0 "sample_id"
    else pure .null
  pure ⟨fid, fname, fsize, caseId, sampleId⟩

/-- One row of the clinical table (source lines 140-153). -/
structure ClinicalRecord where
  case_id : Json
  age_at_index : Json
  gender : Json
  race : Json
  vital_status : Json
  days_to_death : Json
  days_to_birth : Json
  primary_diagnosis : Json
  tumor_stage : Json
  ajcc_pathologic_t : Json
  ajcc_pathologic_n : Json
  ajcc_pathologic_m : Json
deriving Repr

/-- Flatten one hit of the `/cases` endpoint (source lines 135-153). -/
def flattenCase (c : Json) : Except PyErr ClinicalRecord := do
  let caseId ← pyGet c "id"
  let demographic ← pyGetD c "demographic" (.obj [])
  let diagJ ← pyGet c "diagnoses"
  let diagnoses ←
    if truthy diagJ then do
      let dl ← pyGetD c "diagnoses" (.arr [.obj []])
      pyIndex0 dl
    else pure (.obj [])
  let age ← pyGet demographic "age_at_index"
  let gender ← pyGet demographic "gender"
  let race ← pyGet demographic "race"
  let vital ← pyGet demographic "vital_status"
  let dtd ← pyGet demographic "days_to_death"
  let dtb ← pyGet demographic "days_to_birth"
  let pdx ← pyGet diagnoses "primary_diagnosis"
  let ts ← pyGet diagnoses "tumor_stage"
  let at_ ← pyGet diagnoses "ajcc_pathologic_t"
  let an_ ← pyGet diagnoses "ajcc_pathologic_n"
  let am_ ← pyGet diagnoses "ajcc_pathologic_m"
  pure ⟨caseId, age, gender, race, vital, dtd, dtb, pdx, ts, at_, an_, am_⟩

/-! ## `get_file_manifest` and `get_clinical_data` (response handling) -/

/-- `get_file_manifest` from the parsed response onward (source lines 79-99):
the `data`/`hits` shape check followed by per-hit flattening.  Frame
serialization to disk is I/O only and does not affect the returned rows. -/
def get_file_manifest (resp : Json) : Except PyErr (List FileRecord) := do
  let hasData ← pyIn "data" resp
  if hasData then do
    let d ← pySub resp "data"
    let hasHits ← pyIn "hits" d
    if hasHits then do
      let d2 ← pySub resp "data"
      let hits ← pySub d2 "hits"
      let files ← pyIter hits
      files.mapM flattenFile
    else Except.error (.valueError "No files found in GDC response")
  else Except.error (.valueError "No files found in GDC response")

/-- `get_clinical_data` from the parsed response onward (source lines 125-153). -/
def get_clinical_data (resp : Json) : Except PyErr (List ClinicalRecord) := do
  let hasData ← pyIn "data" resp
  if hasData then do
    let d ← pySub resp "data"
    let hasHits ← pyIn "hits" d
    if hasHits then do
      let d2 ← pySub resp "data"
      let hits ← pySub d2 "hits"
      let cases ← pyIter hits
      cases.mapM flattenCase
    else Except.error (.valueError "No cases found in GDC response")
  else Except.error (.valueError "No cases found in GDC response")

/-! ## Filesystem, HTTP download responses, frames -/

/-- An HTTP response that passed `raise_for_status`: the (possibly absent,
hence defaulted-to-empty) content-type header and the streamed body. -/
structure HttpResp where
  contentType : String
  body : String
deriving Repr, DecidableEq

/-- Which hardcoded URL a download request went to. -/
inductive UrlChoice where
  | primaryUrl
  | secondaryUrl
deriving Repr, DecidableEq

/-- Overwrite path `p` of the filesystem with content `c`. -/
def writeFs (fs : String → Option String) (p c : String) : String → Option String :=
  fun q => if q = p then some c else fs q

/-- Result of a download call: the returned path or the propagated exception,
the filesystem after the call, and the network requests issued, in order. -/
structure DownloadOut where
  result : Except PyErr String
  fsAfter : String → Option String
  requests : List UrlChoice

/-- A pandas frame: column names and rows of string cells. -/
structure DataFrame where
  columns : List String
  rows : List (List String)
deriving Repr, DecidableEq

def emptyFrame : DataFrame := ⟨[], []⟩

/-- The HTML document-start signatures checked on first bytes
(source lines 348, 390, 417). -/
def isHtmlContent (c : String) : Bool :=
  strStarts c "<!DOCTYPE" || strStarts c "<html"

/-! ## `download_pam50_from_url` (source lines 323-404) -/

/-- Stream the body to the target path, then verify the written file is not
HTML (source lines 377-394); the resulting `ValueError` propagates. -/
def writeVerify (fs : String → Option String) (target body : String)
    (reqs : List UrlChoice) : DownloadOut :=
  let fs2 := writeFs fs target body
  if isHtmlContent body then
    ⟨.error (.valueError "Downloaded file is HTML, not a data file. The URL may have changed."),
     fs2, reqs⟩
  else ⟨.ok target, fs2, reqs⟩

/-- The download path of `download_pam50_from_url` after the existing-file
check (source lines 356-394): GET the primary URL; if its content type
indicates HTML and a fallback URL exists (the caller passed no explicit URL),
GET the secondary URL once, with no content-type check of its own; with no
fallback available raise a `ValueError`.  Transport errors propagate (the
`except` clause at lines 395-404 only prints and re-raises). -/
def downloadBody (fs : String → Option String) (primary secondary : Except PyErr HttpResp)
    (urlGiven : Bool) (target : String) : DownloadOut :=
  match primary with
  | .error e => ⟨.error e, fs, [.primaryUrl]⟩
  | .ok r =>
    if strContains (strLower r.contentType) "text/html"
        || strContains (strLower r.contentType) "html" then
      if urlGiven then
        ⟨.error (.valueError "Downloaded file appears to be HTML, not a data file"),
         fs, [.primaryUrl]⟩
      else
        match secondary with
        | .error e => ⟨.error e, fs, [.primaryUrl, .secondaryUrl]⟩
        | .ok r2 => writeVerify fs target r2.body [.primaryUrl, .secondaryUrl]
    else writeVerify fs target r.body [.primaryUrl]

/-- `download_pam50_from_url(url, file_name)`.  `urlGiven` is whether the
caller passed an explicit `url` (in which case no fallback URL exists);
`primary`/`secondary` are the transport outcomes of the two URLs that can be
requested.  An existing target file is returned as is unless its first bytes
are an HTML signature, in which case it is re-downloaded (source lines
342-354). -/
def download_pam50_from_url (fs : String → Option String)
    (primary secondary : Except PyErr HttpResp) (urlGiven : Bool)
    (dataDir fileName : String) : DownloadOut :=
  let target := dataDir ++ "/" ++ fileName
  match fs target with
  | some c =>
    if isHtmlContent c then downloadBody fs primary secondary urlGiven target
    else ⟨.ok target, fs, []⟩
  | none => downloadBody fs primary secondary urlGiven target

/-- `download_file(file_id, file_name)` (source lines 482-510): skip the
transfer when the target exists, otherwise stream the response body to disk.
No HTML or checksum verification is performed here. -/
def download_file (fs : String → Option String) (resp : Except PyErr HttpResp)
    (dataDir fileName : String) : DownloadOut :=
  let target := dataDir ++ "/" ++ fileName
  match fs target with
  | some _ => ⟨.ok target, fs, []⟩
  | none =>
    match resp with
    | .error e => ⟨.error e, fs, [.primaryUrl]⟩
    | .ok r => ⟨.ok target, writeFs fs target r.body, [.primaryUrl]⟩

/-! ## `load_pam50_from_file` (source lines 406-480) -/

/-- pandas' default `na_values` tokens: cells equal to one of these parse as
NaN under `pd.read_csv` defaults (`keep_default_na=True`). -/
def pandasNaValues : List String :=
  ["", "#N/A", "#N/A N/A", "#NA", "-1.#IND", "-1.#QNAN", "-NaN", "-nan",
   "1.#IND", "1.#QNAN", "<NA>", "N/A", "NA", "NULL", "NaN", "None", "n/a",
   "nan", "null"]

/-- Whether a raw cell is parsed as NaN by `pd.read_csv`. -/
def cellIsNa (c : String) : Bool := pandasNaValues.contains c

/-- `astype(str)` on a parsed cell: NaN prints as the literal text nan. -/
def cellToStr (c : String) : String := if cellIsNa c then "nan" else c

/-- `comment='#'`: a line is truncated at its first hash character. -/
def stripComment (l : String) : String := (strSplitOnChar '#' l).headD ""

/-- The physical lines pandas parses: split on newlines, truncate comments,
skip blank lines (`skip_blank_lines=True`). -/
def parseLines (content : String) : List String :=
  ((strSplitOnChar '\n' content).map stripComment).filter (fun l => l != "")

/-- `pd.read_csv(sep, on_bad_lines='skip', comment='#', skip_blank_lines=True)`:
first line is the header; rows with more fields than the header are skipped
(`on_bad_lines='skip'`), rows with fewer are padded with NaN; an empty input
raises (pandas `EmptyDataError`). -/
def readCsvSep (sep : Char) (content : String) : Except PyErr DataFrame :=
  match parseLines content with
  | [] => .error .parserError
  | h :: rest =>
    let cols := strSplitOnChar sep h
    let n := cols.length
    .ok ⟨cols, rest.filterMap (fun l =>
      let cs := strSplitOnChar sep l
      if cs.length > n then none
      else some (cs ++ List.replicate (n - cs.length) ""))⟩

/-- `pd.read_csv(sep=None, engine='python')`: the csv sniffer, modelled as the
first candidate delimiter occurring in the header line; the sniffer raises
when it cannot determine a delimiter. -/
def readCsvSniff (content : String) : Except PyErr DataFrame :=
  match parseLines content with
  | [] => .error .parserError
  | h :: _ =>
    match [',', '\t', ';', ' ', ':'].find? (fun d => (strSplitOnChar d h).length ≥ 2) with
    | none => .error .parserError
    | some d => readCsvSep d content

/-- `df.dropna(how='all')` (source line 433): drop rows whose cells are all NaN. -/
def dropAllNa (df : DataFrame) : DataFrame :=
  ⟨df.columns, df.rows.filter (fun r => !r.all cellIsNa)⟩

/-- The label-column substrings scanned for (source line 439). -/
def matchesLabel (c : String) : Bool :=
  ["pam50", "subtype", "molecular", "call"].any (fun x => strContains (strLower c) x)

/-- The identifier-column substrings scanned for (source line 440). -/
def matchesId (c : String) : Bool :=
  ["case", "sample", "barcode", "patient", "tumor"].any (fun x => strContains (strLower c) x)

/-- Column selection (source lines 439-446): scan headers for known
substrings; when either scan comes up empty and there are at least two
columns, override both selections positionally.  Returns the chosen
(identifier, label) columns, if any, and whether the positional fallback
fired. -/
def selectColumns (cols : List String) : Option (String × String) × Bool :=
  let subtypeCols := cols.filter matchesLabel
  let idCols := cols.filter matchesId
  if subtypeCols.isEmpty || idCols.isEmpty then
    match cols with
    | c0 :: c1 :: _ => (some (c0, c1), true)
    | _ => (none, false)
  else (some (idCols.headD "", subtypeCols.headD ""), false)

/-- Index of a column name in the header list (first occurrence). -/
def listIndexOf : List String → String → Nat
  | [], _ => 0
  | c :: cs, x => if c == x then 0 else listIndexOf cs x + 1

/-- Source lines 448-461: project the chosen columns, rename them, convert to
trimmed strings, and drop rows whose label is empty or the text nan
case-insensitively.  The `notna()` filter at line 454 is a no-op after
`astype(str)`. -/
def normalizeSelected (df : DataFrame) (idCol labelCol : String) : DataFrame :=
  let i := listIndexOf df.columns idCol
  let j := listIndexOf df.columns labelCol
  let pairs := df.rows.map (fun r =>
    (strStrip (cellToStr (r.getD i "")), strStrip (cellToStr (r.getD j ""))))
  let kept := pairs.filter (fun p => p.2 != "" && strLower p.2 != "nan")
  ⟨["case_id", "pam50_subtype"], kept.map (fun p => [p.1, p.2])⟩

/-- The label values the importer pipeline ends up removing end to end: cells
pandas parses as NaN (which `astype(str)` then prints as nan), cells that trim
to the empty string, and cells that trim to nan case-insensitively. -/
def labelRemoved (c : String) : Bool :=
  cellIsNa c || strStrip c == "" || strLower (strStrip c) == "nan"

/-- The rows a two-column TSV import produces: the well-formed input rows whose
label cell survives, each normalized to trimmed strings. -/
def c3Expected (rows : List String) : List (List String) :=
  (rows.filter (fun r => !labelRemoved ((strSplitOnChar '\t' r).getD 1 ""))).map
    (fun r => [strStrip (cellToStr ((strSplitOnChar '\t' r).getD 0 "")),
               strStrip (cellToStr ((strSplitOnChar '\t' r).getD 1 ""))])

/-- The body of the try-block at source lines 424-466: parse as TSV, re-parse
with delimiter sniffing when a single column results, drop all-NaN rows, pick
columns, normalize; with no usable column pair the raw frame is returned. -/
def loadParse (content : String) : Except PyErr DataFrame := do
  let df0 ← readCsvSep '\t' content
  let df1 ← if df0.columns.length = 1 then readCsvSniff content else pure df0
  let df := dropAllNa df1
  match selectColumns df.columns with
  | (some (idCol, labelCol), _) => pure (normalizeSelected df idCol labelCol)
  | (none, _) => pure df

/-- `load_pam50_from_file(file_path)` (source lines 406-480): missing file is
fatal (`FileNotFoundError`); an HTML payload yields the empty frame; any
parsing failure is caught and yields the empty frame. -/
def load_pam50_from_file (fs : String → Option String) (path : String) :
    Except PyErr DataFrame :=
  match fs path with
  | none => .error (.fileNotFound ("PAM50 file not found: " ++ path))
  | some content =>
    if isHtmlContent content then .ok emptyFrame
    else
      match loadParse content with
      | .ok df => .ok df
      | .error _ => .ok emptyFrame

/-! ## `get_pam50_subtypes` (source lines 162-321) -/

/-- One row built from an `/annotations` hit (source lines 201-205). -/
structure AnnRecord where
  case_id : Json
  ann_type : Json
  entity_id : Json
deriving Repr

/-- Flatten one `/annotations` hit (source lines 201-205). -/
def flattenAnn (a : Json) : Except PyErr AnnRecord := do
  let cid ← pyGet a "case_id"
  let aty ← pyGet a "annotation_type"
  let eid ← pyGet a "entity_id"
  pure ⟨cid, aty, eid⟩

/-- Method 1's try-block (source lines 194-206), given the `_query_gdc`
outcome: `some` rows when the response has the right shape with nonempty
hits, `none` when the guarding condition is false; any exception is the
`Except.error` case, caught by the caller. -/
def pam50Method1 (m1 : Except PyErr Json) : Except PyErr (Option (List AnnRecord)) := do
  let resp ← m1
  let hasData ← pyIn "data" resp
  if hasData then do
    let d ← pySub resp "data"
    let hasHits ← pyIn "hits" d
    if hasHits then do
      let d2 ← pySub resp "data"
      let hits ← pySub d2 "hits"
      let n ← pyLen hits
      if n > 0 then do
        let hitsL ← pyIter hits
        let anns ← hitsL.mapM flattenAnn
        pure (some anns)
      else pure none
    else pure none
  else pure none

/-- Method 2's try-block (source lines 212-255): search the clinical file
listing for names containing pam50 or subtype.  Its outcome only drives
prints and a persisted side manifest, never the return value. -/
def pam50Method2 (m2 : Except PyErr Json) :
    Except PyErr (Option (List (Json × Json × Json))) := do
  let resp ← m2
  let hasData ← pyIn "data" resp
  if hasData then do
    let d ← pySub resp "data"
    let hasHits ← pyIn "hits" d
    if hasHits then do
      let d2 ← pySub resp "data"
      let hits ← pySub d2 "hits"
      let files ← pyIter hits
      let flags ← files.mapM (fun f => do
        let fn ← pyGetD f "file_name" (.str "")
        let s ← pyStrLower fn
        pure (strContains s "pam50" || strContains s "subtype"))
      let pam50Files := (files.zip flags).filterMap (fun p => if p.2 then some p.1 else none)
      if pam50Files.isEmpty then pure none
      else do
        let recs ← pam50Files.mapM (fun f => do
          let fid ← pyGet f "id"
          let fname ← pyGet f "file_name"
          let casesJ ← pyGet f "cases"
          let cid ←
            if truthy casesJ then do
              let cs ← pyGetD f "cases" (.arr [.obj []])
              let c0 ← pyIndex0 cs
              pyGet c0 "case_id"
            else pure Json.null
          pure (fid, fname, cid))
        pure (some recs)
    else pure none
  else pure none

/-- The scan over the first five sampled cases in method 3
(source lines 280-284), with its early break. -/
def method3Scan : List Json → Except PyErr Bool
  | [] => .ok false
  | c :: rest => do
    let diagJ ← pyGet c "diagnoses"
    let diagnoses ←
      if truthy diagJ then do
        let dl ← pyGetD c "diagnoses" (.arr [.obj []])
        pyIndex0 dl
      else pure (Json.obj [])
    let m ← pyGet diagnoses "molecular_subtype_method"
    if truthy m then pure true else method3Scan rest

/-- Method 3's try-block (source lines 262-287): advisory only; it prints a
hint and never returns data. -/
def pam50Method3 (m3 : Except PyErr Json) : Except PyErr Bool := do
  let resp ← m3
  let hasData ← pyIn "data" resp
  if hasData then do
    let d ← pySub resp "data"
    let hasHits ← pyIn "hits" d
    if hasHits then do
      let d2 ← pySub resp "data"
      let hits ← pySub d2 "hits"
      let cases ← pyIter hits
      method3Scan (cases.take 5)
    else pure false
  else pure false

/-- The frame `get_pam50_subtypes` returns: annotation rows from method 1, a
frame loaded from the downloaded file, or the empty frame. -/
inductive Pam50Out where
  | fromAnns (anns : List AnnRecord)
  | fromFile (df : DataFrame)
  | emptyOut
deriving Repr

/-- Method 4 (source lines 292-298): when `auto_download` is set, download
the supplementary file under its default name and load it; the enclosing
`except Exception` turns any failure into falling through to the guidance
prints and the final empty frame (source line 321). -/
def pam50Method4 (autoDownload : Bool) (fs : String → Option String)
    (primary secondary : Except PyErr HttpResp) (dataDir : String) :
    Except PyErr Pam50Out :=
  if autoDownload then
    let dl := download_pam50_from_url fs primary secondary false dataDir
      "BRCA.547.PAM50.SigClust.Subtypes.txt"
    match dl.result with
    | .error _ => .ok .emptyOut
    | .ok p =>
      match load_pam50_from_file dl.fsAfter p with
      | .ok df => .ok (.fromFile df)
      | .error _ => .ok .emptyOut
  else .ok .emptyOut

/-- `get_pam50_subtypes(auto_download)` (source lines 162-321).  `m1 m2 m3`
are the `_query_gdc` outcomes of the three query methods; `primary` and
`secondary` the transport outcomes of the two download URLs.  Every stage sits
inside a `try`/`except Exception` in the source, so exceptions only make the
stage fall through.  Methods 2 and 3 print and persist a side manifest but
never change the returned frame; their outcomes are computed and discarded
here. -/
def get_pam50_subtypes (m1 m2 m3 : Except PyErr Json) (autoDownload : Bool)
    (fs : String → Option String) (primary secondary : Except PyErr HttpResp)
    (dataDir : String) : Except PyErr Pam50Out :=
  match pam50Method1 m1 with
  | .ok (some anns) => .ok (.fromAnns anns)
  | _ =>
    let _sideM2 := pam50Method2 m2
    let _sideM3 := pam50Method3 m3
    pam50Method4 autoDownload fs primary secondary dataDir

/-! ## Concrete fixtures for the closed instantiations -/

/-- A transport that fails on every attempt. -/
def tFailW : Nat → Except PyErr Json := fun _ => .error (.requestError "boom")

/-- A transport that fails on attempt 0 and succeeds from attempt 1 on. -/
def tOkW : Nat → Except PyErr Json :=
  fun k => if k = 0 then .error (.requestError "boom") else .ok (.obj [])

/-- An empty filesystem. -/
def fsNoneW : String → Option String := fun _ => none

/-- A well-formed two-column PAM50 file. -/
def pam50ContentW : String :=
  "Sample_ID\tPAM50_Call\nTCGA-01\tLumA\nTCGA-02\tnan\nTCGA-03\t  Basal "

/-- A filesystem holding the well-formed PAM50 file. -/
def fsPamW : String → Option String :=
  fun p => if p = "pam50.txt" then some pam50ContentW else none

/-- A filesystem holding a PAM50 file with a NULL label cell. -/
def fsNullW : String → Option String :=
  fun p => if p = "pam50.txt" then some "Sample_ID\tPAM50_Call\nS1\tNULL\nS2\tLumA" else none

/-- A filesystem on which the download target already exists but holds HTML. -/
def fsHtmlW : String → Option String :=
  fun p => if p = "data/f.txt" then some "<html><body>err</body></html>" else none

/-- A successful plain-text data response. -/
def respDataW : Except PyErr HttpResp := .ok ⟨"text/plain", "S\tP\nA\tLumA"⟩

/-- A successful response whose content type indicates HTML. -/
def respHtmlCtW : Except PyErr HttpResp := .ok ⟨"text/html", "landing page"⟩

/-- A filesystem on which the download target already exists with data. -/
def fsDataW : String → Option String :=
  fun p => if p = "data/f.txt" then some "S\tP\nA\tLumA" else none

/-! ## General helper lemmas -/

theorem ok_bind {α β : Type} {ε : Type} (a : α) (f : α → Except ε β) :
    (Except.ok a : Except ε α) >>= f = f a := rfl

theorem error_bind {α β : Type} {ε : Type} (e : ε) (f : α → Except ε β) :
    (Except.error e : Except ε α) >>= f = (.error e : Except ε β) := rfl

theorem listMapId {α : Type} (f : α → α) :
    ∀ l : List α, (∀ x ∈ l, f x = x) → l.map f = l
  | [], _ => rfl
  | x :: xs, h => by
    simp only [List.map_cons]
    rw [h x (List.mem_cons_self x xs),
      listMapId f xs (fun y hy => h y (List.mem_cons_of_mem x hy))]

theorem listFilterAll {α : Type} (p : α → Bool) :
    ∀ l : List α, (∀ x ∈ l, p x = true) → l.filter p = l
  | [], _ => rfl
  | x :: xs, h => by
    simp only [List.filter_cons, h x (List.mem_cons_self x xs), if_pos]
    rw [listFilterAll p xs (fun y hy => h y (List.mem_cons_of_mem x hy))]

theorem listFilterMapSome {α β : Type} (g : α → Option β) (f : α → β) :
    ∀ l : List α, (∀ x ∈ l, g x = some (f x)) → l.filterMap g = l.map f
  | [], _ => rfl
  | x :: xs, h => by
    simp only [List.filterMap_cons, h x (List.mem_cons_self x xs), List.map_cons]
    rw [listFilterMapSome g f xs (fun y hy => h y (List.mem_cons_of_mem x hy))]

/-! ## Lemmas on the retry core -/

theorem queryGdcAux_returns (t : Nat → Except PyErr Json) :
    ∀ (f a : Nat), 1 ≤ f → ∃ r, (queryGdcAux t a f).1 = some r := by
  intro f
  induction f with
  | zero => intro a h; omega
  | succ f ih =>
    intro a _
    cases ht : t a with
    | ok j => exact ⟨.ok j, by simp [queryGdcAux, ht]⟩
    | error e =>
      by_cases hf : f = 0
      · exact ⟨.error e, by simp [queryGdcAux, ht, hf]⟩
      · obtain ⟨r, hr⟩ := ih (a + 1) (Nat.one_le_iff_ne_zero.mpr hf)
        exact ⟨r, by simp [queryGdcAux, ht, hf]; exact hr⟩

/-! ## Claim theorems -/

/-- C10: with `max_retries = 0` (the only non-positive value of the `Nat`
embedding of the non-negative retry count), `_query_gdc` performs no attempt,
sleeps never, and falls off the loop returning Python `None` rather than a
dict or an error; with `max_retries >= 1` it always returns an outcome: a
parsed JSON body or a propagated error. -/
theorem claimC10 (t : Nat → Except PyErr Json) (n : Nat) :
    query_gdc t 0 = (none, 0, []) ∧ (1 ≤ n → ∃ r, (query_gdc t n).1 = some r) :=
  ⟨rfl, fun h => queryGdcAux_returns t n 0 h⟩

/-- Closed instantiation of C10. -/
theorem claimC10_witness :
    query_gdc tFailW 0 = (none, 0, []) ∧ ∃ r, (query_gdc tFailW 1).1 = some r :=
  ⟨(claimC10 tFailW 1).1, (claimC10 tFailW 1).2 (Nat.le_refl 1)⟩

/-- C5: `load_pam50_from_file` raises exactly when the path does not exist
(a `FileNotFoundError`); on every existing file it returns a frame — parsing
failures and HTML payloads degrade to the empty frame instead of raising. -/
theorem claimC5 (fs : String → Option String) (p : String) :
    (fs p = none →
      load_pam50_from_file fs p = .error (.fileNotFound ("PAM50 file not found: " ++ p))) ∧
    (∀ c, fs p = some c → ∃ df, load_pam50_from_file fs p = .ok df) ∧
    (∀ e, load_pam50_from_file fs p = .error e →
      fs p = none ∧ e = .fileNotFound ("PAM50 file not found: " ++ p)) := by
  refine ⟨?_, ?_, ?_⟩
  · intro h
    simp [load_pam50_from_file, h]
  · intro c h
    simp only [load_pam50_from_file, h]
    by_cases hh : isHtmlContent c
    · exact ⟨emptyFrame, by simp [hh]⟩
    · cases hl : loadParse c with
      | ok df => exact ⟨df, by simp [hh, hl]⟩
      | error e => exact ⟨emptyFrame, by simp [hh, hl]⟩
  · intro e h
    unfold load_pam50_from_file at h
    cases hf : fs p with
    | none =>
      rw [hf] at h
      refine ⟨rfl, ?_⟩
      injection h with h2
      exact h2.symm
    | some c =>
      exfalso
      rw [hf] at h
      have h2 : (if isHtmlContent c = true then (Except.ok emptyFrame : Except PyErr DataFrame)
          else match loadParse c with
            | .ok df => .ok df
            | .error _ => .ok emptyFrame) = .error e := h
      by_cases hh : isHtmlContent c
      · rw [if_pos hh] at h2
        exact Except.noConfusion h2
      · rw [if_neg hh] at h2
        cases hl : loadParse c with
        | ok df => rw [hl] at h2; exact Except.noConfusion h2
        | error e2 => rw [hl] at h2; exact Except.noConfusion h2

/-- Closed instantiation of C5. -/
theorem claimC5_witness :
    load_pam50_from_file fsNoneW "pam50.txt"
      = .error (.fileNotFound ("PAM50 file not found: " ++ "pam50.txt")) ∧
    ∃ df, load_pam50_from_file fsPamW "pam50.txt" = .ok df :=
  ⟨(claimC5 fsNoneW "pam50.txt").1 rfl,
   (claimC5 fsPamW "pam50.txt").2.1 pam50ContentW rfl⟩

/-- C9 as amended: for `download_file` an existing target path means zero
network requests, an unchanged filesystem, and the existing path returned; for
`download_pam50_from_url` the same holds provided the existing file does not
start with an HTML signature (an existing HTML file is instead re-downloaded,
see the counterexample). -/
theorem claimC9 (fs : String → Option String) (resp prim sec : Except PyErr HttpResp)
    (g : Bool) (dd fn c : String) (hex : fs (dd ++ "/" ++ fn) = some c) :
    download_file fs resp dd fn = ⟨.ok (dd ++ "/" ++ fn), fs, []⟩ ∧
    (isHtmlContent c = false →
      download_pam50_from_url fs prim sec g dd fn = ⟨.ok (dd ++ "/" ++ fn), fs, []⟩) := by
  constructor
  · simp [download_file, hex]
  · intro hh
    simp [download_pam50_from_url, hex, hh]

/-- Closed instantiation of the amended C9. -/
theorem claimC9_witness :
    download_file fsDataW respDataW "data" "f.txt" = ⟨.ok "data/f.txt", fsDataW, []⟩ ∧
    download_pam50_from_url fsDataW respDataW respDataW false "data" "f.txt"
      = ⟨.ok "data/f.txt", fsDataW, []⟩ := by
  have h := claimC9 fsDataW respDataW respDataW respDataW false "data" "f.txt" "S\tP\nA\tLumA" rfl
  exact ⟨h.1, h.2 rfl⟩

/-- C9 as stated is false at this input: the download target exists on disk
(holding an HTML error page), yet `download_pam50_from_url` issues a network
request and overwrites the file instead of returning it untouched. -/
theorem claimC9_cex :
    fsHtmlW "data/f.txt" = some "<html><body>err</body></html>" ∧
    (download_pam50_from_url fsHtmlW respDataW respDataW false "data" "f.txt").requests
      = [.primaryUrl] ∧
    (download_pam50_from_url fsHtmlW respDataW respDataW false "data" "f.txt").fsAfter "data/f.txt"
      = some "S\tP\nA\tLumA" :=
  ⟨rfl, rfl, rfl⟩

/-- C7 as amended: the importer scans headers for the known substrings, and
the positional fallback (first column identifier, second column label) fires
exactly when at least one of the two scans finds no match and there are at
least two columns; the fallback then overrides both selections, including any
named match of the other kind.  Only when both scans match are the first
matching headers of each kind used.  With fewer than two columns and a failed
scan no columns are selected (the raw frame is returned). -/
theorem claimC7 (cols : List String) :
    (∀ i0 itl l0 ltl, cols.filter matchesId = i0 :: itl →
       cols.filter matchesLabel = l0 :: ltl →
       selectColumns cols = (some (i0, l0), false)) ∧
    ((cols.filter matchesId = [] ∨ cols.filter matchesLabel = []) →
      (∀ c0 c1 rest, cols = c0 :: c1 :: rest →
        selectColumns cols = (some (c0, c1), true)) ∧
      (cols.length ≤ 1 → selectColumns cols = (none, false))) := by
  constructor
  · intro i0 itl l0 ltl hid hlab
    simp [selectColumns, hid, hlab]
  · intro h
    have hcond : ((cols.filter matchesLabel).isEmpty || (cols.filter matchesId).isEmpty) = true := by
      rcases h with h | h <;> simp [h]
    constructor
    · intro c0 c1 rest hc
      simp only [selectColumns, hcond]
      subst hc
      simp
    · intro hlen
      cases cols with
      | nil => simp [selectColumns]
      | cons c0 tl =>
        cases tl with
        | nil =>
          simp only [selectColumns]
          rw [hcond]
          simp
        | cons c1 tl2 => simp at hlen

/-- Closed instantiation of the amended C7: a double named match, a fallback
on two unmatched columns, and a single unmatched column. -/
theorem claimC7_witness :
    selectColumns ["Sample_ID", "PAM50_Call"] = (some ("Sample_ID", "PAM50_Call"), false) ∧
    selectColumns ["A", "B"] = (some ("A", "B"), true) ∧
    selectColumns ["A"] = (none, false) := by
  refine ⟨?_, ?_, ?_⟩
  · exact (claimC7 ["Sample_ID", "PAM50_Call"]).1 "Sample_ID" [] "PAM50_Call" [] rfl rfl
  · exact ((claimC7 ["A", "B"]).2 (Or.inl rfl)).1 "A" "B" [] rfl
  · exact ((claimC7 ["A"]).2 (Or.inl rfl)).2 (by decide)

/-- C7 as stated is false at this input: the header case_id matches the
identifier substrings, yet the positional fallback fires (because no label
header matched) and assigns the matched identifier header as the label
column — so the fallback does not trigger exactly when no header matches, and
the named match does not take priority. -/
theorem claimC7_cex :
    selectColumns ["foo", "case_id"] = (some ("foo", "case_id"), true) ∧
    matchesId "case_id" = true ∧ matchesId "foo" = false ∧
    matchesLabel "foo" = false ∧ matchesLabel "case_id" = false :=
  ⟨rfl, rfl, rfl, rfl, rfl⟩

theorem backoffCons (a m : Nat) :
    (List.range (m + 1)).map (fun i => 2 ^ (a + i))
      = 2 ^ a :: (List.range m).map (fun i => 2 ^ (a + 1 + i)) := by
  rw [List.range_succ_eq_map, List.map_cons, List.map_map]
  have hfn : ((fun i => 2 ^ (a + i)) ∘ Nat.succ) = (fun i => 2 ^ (a + 1 + i)) := by
    funext i
    simp only [Function.comp]
    congr 1
    omega
  rw [hfn, Nat.add_zero]

theorem queryGdcAux_allFail (t : Nat → Except PyErr Json) :
    ∀ (f a : Nat), 0 < f → (∀ k, k < f → ∃ e, t (a + k) = .error e) →
    ∃ e, t (a + (f - 1)) = .error e ∧
      queryGdcAux t a f
        = (some (.error e), f, (List.range (f - 1)).map (fun i => 2 ^ (a + i))) := by
  intro f
  induction f with
  | zero => intro a h0 _; exact absurd h0 (lt_irrefl 0)
  | succ f ih =>
    intro a _ h
    obtain ⟨e0, he0⟩ := h 0 (Nat.succ_pos f)
    rw [Nat.add_zero] at he0
    by_cases hf : f = 0
    · subst hf
      refine ⟨e0, by simpa using he0, ?_⟩
      simp [queryGdcAux, he0]
    · have hfpos : 0 < f := Nat.pos_of_ne_zero hf
      obtain ⟨e, he, heq⟩ := ih (a + 1) hfpos (fun k hk => by
        obtain ⟨e2, he2⟩ := h (k + 1) (Nat.succ_lt_succ hk)
        refine ⟨e2, ?_⟩
        rw [show a + 1 + k = a + (k + 1) by omega]
        exact he2)
      refine ⟨e, ?_, ?_⟩
      · rw [show a + (f + 1 - 1) = a + 1 + (f - 1) by omega]
        exact he
      · have hstep : queryGdcAux t a (f + 1)
            = ((queryGdcAux t (a + 1) f).1, (queryGdcAux t (a + 1) f).2.1 + 1,
               2 ^ a :: (queryGdcAux t (a + 1) f).2.2) := by
          simp [queryGdcAux, he0, hf]
        rw [hstep, heq]
        simp only [Prod.mk.injEq]
        refine ⟨trivial, trivial, ?_⟩
        rw [show f + 1 - 1 = (f - 1) + 1 by omega, backoffCons]

theorem queryGdcAux_firstOk (t : Nat → Except PyErr Json) :
    ∀ (k a f : Nat) (j : Json), (∀ i, i < k → ∃ e, t (a + i) = .error e) →
      t (a + k) = .ok j → k < f →
      queryGdcAux t a f = (some (.ok j), k + 1, (List.range k).map (fun i => 2 ^ (a + i))) := by
  intro k
  induction k with
  | zero =>
    intro a f j _ hok hf
    rw [Nat.add_zero] at hok
    cases f with
    | zero => omega
    | succ f2 => simp [queryGdcAux, hok]
  | succ k ih =>
    intro a f j h hok hf
    obtain ⟨e0, he0⟩ := h 0 (Nat.succ_pos k)
    rw [Nat.add_zero] at he0
    cases f with
    | zero => omega
    | succ f2 =>
      have hf2 : k < f2 := by omega
      have hf2ne : f2 ≠ 0 := by omega
      have heq := ih (a + 1) f2 j (fun i hi => by
          obtain ⟨e2, he2⟩ := h (i + 1) (Nat.succ_lt_succ hi)
          refine ⟨e2, ?_⟩
          rw [show a + 1 + i = a + (i + 1) by omega]
          exact he2)
        (by rw [show a + 1 + k = a + (k + 1) by omega]; exact hok) hf2
      have hstep : queryGdcAux t a (f2 + 1)
          = ((queryGdcAux t (a + 1) f2).1, (queryGdcAux t (a + 1) f2).2.1 + 1,
             2 ^ a :: (queryGdcAux t (a + 1) f2).2.2) := by
        simp [queryGdcAux, he0, hf2ne]
      rw [hstep, heq]
      simp only [Prod.mk.injEq]
      refine ⟨trivial, trivial, ?_⟩
      rw [backoffCons]

/-- C2: for every endpoint (the endpoint only shapes the URL, which the
transport oracle abstracts) and every `max_retries = n >= 1`: when every one
of the `n` attempts fails in the transport layer, the final attempt's error is
propagated; when the first success happens at attempt `k < n`, that attempt's
parsed JSON is returned after `k + 1` attempts; and the backoff sleeps are
exactly 2 ^ k seconds between attempt `k` and the next. -/
theorem claimC2 (t : Nat → Except PyErr Json) (n : Nat) (hn : 1 ≤ n) :
    ((∀ k, k < n → ∃ e, t k = .error e) →
      ∃ e, t (n - 1) = .error e ∧
        query_gdc t n = (some (.error e), n, (List.range (n - 1)).map (fun i => 2 ^ i))) ∧
    (∀ k j, k < n → (∀ i, i < k → ∃ e, t i = .error e) → t k = .ok j →
      query_gdc t n = (some (.ok j), k + 1, (List.range k).map (fun i => 2 ^ i))) := by
  constructor
  · intro h
    obtain ⟨e, he, heq⟩ := queryGdcAux_allFail t n 0 hn (fun k hk => by simpa using h k hk)
    refine ⟨e, by simpa using he, ?_⟩
    unfold query_gdc
    rw [heq]
    simp only [Prod.mk.injEq]
    refine ⟨trivial, trivial, List.map_congr_left ?_⟩
    intro i _
    rw [Nat.zero_add]
  · intro k j hk h hok
    have heq := queryGdcAux_firstOk t k 0 n j (fun i hi => by simpa using h i hi)
      (by simpa using hok) hk
    unfold query_gdc
    rw [heq]
    simp only [Prod.mk.injEq]
    refine ⟨trivial, trivial, List.map_congr_left ?_⟩
    intro i _
    rw [Nat.zero_add]

/-- Closed instantiation of C2, on an always-failing transport and a
transport whose attempt 1 succeeds. -/
theorem claimC2_witness :
    (∃ e, tFailW 1 = .error e ∧ query_gdc tFailW 2 = (some (.error e), 2, [1])) ∧
    query_gdc tOkW 2 = (some (.ok (.obj [])), 2, [1]) := by
  constructor
  · exact (claimC2 tFailW 2 (by decide)).1 (fun k _ => ⟨.requestError "boom", rfl⟩)
  · exact (claimC2 tOkW 2 (by decide)).2 1 (.obj []) (by decide)
      (fun i hi => ⟨.requestError "boom", by
        have hi0 : i = 0 := Nat.lt_one_iff.mp hi
        subst hi0
        rfl⟩)
      rfl

/-- C6: flattening never raises on absent nested paths.  A case record
without a demographic object (and without diagnoses) flattens with every
demographic-derived and diagnosis-derived field null and the present id
untouched; a file record without a nested cases array flattens with null
case and sample ids; a file record whose first case lacks a samples array
flattens with a null sample id and the case id taken from that case. -/
theorem claimC6 :
    (∀ cfs : List (String × Json),
      List.lookup "demographic" cfs = none → List.lookup "diagnoses" cfs = none →
      flattenCase (.obj cfs) = .ok ⟨(List.lookup "id" cfs).getD .null,
        .null, .null, .null, .null, .null, .null, .null, .null, .null, .null, .null⟩) ∧
    (∀ ffs : List (String × Json), List.lookup "cases" ffs = none →
      flattenFile (.obj ffs) = .ok ⟨(List.lookup "id" ffs).getD .null,
        (List.lookup "file_name" ffs).getD .null, (List.lookup "file_size" ffs).getD .null,
        .null, .null⟩) ∧
    (∀ (ffs cfs : List (String × Json)) (rest : List Json),
      List.lookup "cases" ffs = some (.arr (.obj cfs :: rest)) →
      List.lookup "samples" cfs = none →
      flattenFile (.obj ffs) = .ok ⟨(List.lookup "id" ffs).getD .null,
        (List.lookup "file_name" ffs).getD .null, (List.lookup "file_size" ffs).getD .null,
        (List.lookup "case_id" cfs).getD .null, .null⟩) := by
  refine ⟨?_, ?_, ?_⟩
  · intro cfs hdem hdiag
    simp [flattenCase, pyGet, pyGetD, truthy, hdem, hdiag, ok_bind]
  · intro ffs hcases
    simp [flattenFile, pyGet, pyGetD, truthy, hcases, ok_bind]
  · intro ffs cfs rest hcases hsamp
    simp [flattenFile, pyGet, pyGetD, pyIndex0, truthy, hcases, hsamp, ok_bind]

/-- Closed instantiation of C6. -/
theorem claimC6_witness :
    flattenCase (.obj [("id", .str "c1")])
      = .ok ⟨.str "c1", .null, .null, .null, .null, .null, .null, .null, .null, .null,
             .null, .null⟩ ∧
    flattenFile (.obj [("id", .str "f1")])
      = .ok ⟨.str "f1", .null, .null, .null, .null⟩ ∧
    flattenFile (.obj [("id", .str "f1"), ("cases", .arr [.obj [("case_id", .str "c1")]])])
      = .ok ⟨.str "f1", .null, .null, .str "c1", .null⟩ := by
  refine ⟨?_, ?_, ?_⟩
  · exact claimC6.1 [("id", .str "c1")] rfl rfl
  · exact claimC6.2.1 [("id", .str "f1")] rfl
  · exact claimC6.2.2 [("id", .str "f1"), ("cases", .arr [.obj [("case_id", .str "c1")]])]
      [("case_id", .str "c1")] [] rfl rfl

theorem writeVerify_requests (fs : String → Option String) (t b : String)
    (reqs : List UrlChoice) : (writeVerify fs t b reqs).requests = reqs := by
  by_cases hb : isHtmlContent b <;> simp [writeVerify, hb]

theorem writeVerify_ok (fs : String → Option String) (target body : String)
    (reqs : List UrlChoice) (p : String)
    (h : (writeVerify fs target body reqs).result = .ok p) :
    ∃ c, (writeVerify fs target body reqs).fsAfter p = some c ∧ isHtmlContent c = false := by
  by_cases hb : isHtmlContent body
  · have hres : (writeVerify fs target body reqs).result
        = .error (.valueError "Downloaded file is HTML, not a data file. The URL may have changed.") := by
      simp [writeVerify, hb]
    rw [hres] at h
    exact Except.noConfusion h
  · have hres : (writeVerify fs target body reqs).result = .ok target := by
      simp [writeVerify, hb]
    have hfs : (writeVerify fs target body reqs).fsAfter = writeFs fs target body := by
      simp [writeVerify, hb]
    rw [hres] at h
    injection h with h2
    subst h2
    refine ⟨body, ?_, by simpa using hb⟩
    rw [hfs]
    simp [writeFs]

theorem downloadBody_ok (fs : String → Option String) (prim sec : Except PyErr HttpResp)
    (g : Bool) (target p : String)
    (h : (downloadBody fs prim sec g target).result = .ok p) :
    ∃ c, (downloadBody fs prim sec g target).fsAfter p = some c ∧ isHtmlContent c = false := by
  cases prim with
  | error e =>
    have hres : (downloadBody fs (.error e) sec g target).result = .error e := by
      simp [downloadBody]
    rw [hres] at h
    exact Except.noConfusion h
  | ok r =>
    by_cases hc : (strContains (strLower r.contentType) "text/html"
        || strContains (strLower r.contentType) "html") = true
    · by_cases hg : g = true
      · have hres : (downloadBody fs (.ok r) sec g target).result
            = .error (.valueError "Downloaded file appears to be HTML, not a data file") := by
          simp [downloadBody, hc, hg]
        rw [hres] at h
        exact Except.noConfusion h
      · cases sec with
        | error e =>
          have hres : (downloadBody fs (.ok r) (.error e) g target).result = .error e := by
            simp [downloadBody, hc, hg]
          rw [hres] at h
          exact Except.noConfusion h
        | ok r2 =>
          have hbv : downloadBody fs (.ok r) (.ok r2) g target
              = writeVerify fs target r2.body [.primaryUrl, .secondaryUrl] := by
            simp [downloadBody, hc, hg]
          rw [hbv] at h ⊢
          exact writeVerify_ok fs target r2.body _ p h
    · have hbv : downloadBody fs (.ok r) sec g target
          = writeVerify fs target r.body [.primaryUrl] := by
        simp [downloadBody, hc]
      rw [hbv] at h ⊢
      exact writeVerify_ok fs target r.body _ p h

theorem downloadBody_requests_ne (fs : String → Option String)
    (prim sec : Except PyErr HttpResp) (g : Bool) (target : String) :
    (downloadBody fs prim sec g target).requests ≠ [] := by
  cases prim with
  | error e => simp [downloadBody]
  | ok r =>
    by_cases hc : (strContains (strLower r.contentType) "text/html"
        || strContains (strLower r.contentType) "html") = true
    · by_cases hg : g = true
      · simp [downloadBody, hc, hg]
      · cases sec with
        | error e => simp [downloadBody, hc, hg]
        | ok r2 => simp [downloadBody, hc, hg, writeVerify_requests]
    · simp [downloadBody, hc, writeVerify_requests]

theorem downloadBody_requests_le (fs : String → Option String)
    (prim sec : Except PyErr HttpResp) (g : Bool) (target : String) :
    (downloadBody fs prim sec g target).requests.length ≤ 2 := by
  cases prim with
  | error e => simp [downloadBody]
  | ok r =>
    by_cases hc : (strContains (strLower r.contentType) "text/html"
        || strContains (strLower r.contentType) "html") = true
    · by_cases hg : g = true
      · simp [downloadBody, hc, hg]
      · cases sec with
        | error e => simp [downloadBody, hc, hg]
        | ok r2 => simp [downloadBody, hc, hg, writeVerify_requests]
    · simp [downloadBody, hc, writeVerify_requests]

/-- C8: when the primary URL answers with an HTML content type, the secondary
fallback URL is requested exactly once before any outcome is reported; no
call ever requests more than two URLs; and with no secondary available (an
explicit URL was passed) a ValueError is raised. -/
theorem claimC8 (fs : String → Option String) (prim sec : Except PyErr HttpResp)
    (dd fn : String) (r : HttpResp)
    (hne : fs (dd ++ "/" ++ fn) = none)
    (hok : prim = .ok r)
    (hct : strContains (strLower r.contentType) "html" = true) :
    (download_pam50_from_url fs prim sec false dd fn).requests
      = [.primaryUrl, .secondaryUrl] ∧
    download_pam50_from_url fs prim sec true dd fn
      = ⟨.error (.valueError "Downloaded file appears to be HTML, not a data file"),
         fs, [.primaryUrl]⟩ ∧
    (∀ (fs2 : String → Option String) (p2 s2 : Except PyErr HttpResp) (g2 : Bool)
       (d2 n2 : String),
      (download_pam50_from_url fs2 p2 s2 g2 d2 n2).requests.length ≤ 2) := by
  subst hok
  refine ⟨?_, ?_, ?_⟩
  · cases sec with
    | error e => simp [download_pam50_from_url, hne, downloadBody, hct]
    | ok r2 => simp [download_pam50_from_url, hne, downloadBody, hct, writeVerify_requests]
  · simp [download_pam50_from_url, hne, downloadBody, hct]
  · intro fs2 p2 s2 g2 d2 n2
    cases hex : fs2 (d2 ++ "/" ++ n2) with
    | none =>
      have hb : download_pam50_from_url fs2 p2 s2 g2 d2 n2
          = downloadBody fs2 p2 s2 g2 (d2 ++ "/" ++ n2) := by
        simp [download_pam50_from_url, hex]
      rw [hb]
      exact downloadBody_requests_le fs2 p2 s2 g2 _
    | some c =>
      by_cases hh : isHtmlContent c
      · have hb : download_pam50_from_url fs2 p2 s2 g2 d2 n2
            = downloadBody fs2 p2 s2 g2 (d2 ++ "/" ++ n2) := by
          simp [download_pam50_from_url, hex, hh]
        rw [hb]
        exact downloadBody_requests_le fs2 p2 s2 g2 _
      · have hb : download_pam50_from_url fs2 p2 s2 g2 d2 n2
            = ⟨.ok (d2 ++ "/" ++ n2), fs2, []⟩ := by
          simp [download_pam50_from_url, hex, hh]
        rw [hb]
        simp

/-- Closed instantiation of C8. -/
theorem claimC8_witness :
    (download_pam50_from_url fsNoneW respHtmlCtW respDataW false "data" "f.txt").requests
      = [.primaryUrl, .secondaryUrl] ∧
    download_pam50_from_url fsNoneW respHtmlCtW respDataW true "data" "f.txt"
      = ⟨.error (.valueError "Downloaded file appears to be HTML, not a data file"),
         fsNoneW, [.primaryUrl]⟩ ∧
    (∀ (fs2 : String → Option String) (p2 s2 : Except PyErr HttpResp) (g2 : Bool)
       (d2 n2 : String),
      (download_pam50_from_url fs2 p2 s2 g2 d2 n2).requests.length ≤ 2) :=
  claimC8 fsNoneW respHtmlCtW respDataW "data" "f.txt" ⟨"text/html", "landing page"⟩ rfl rfl rfl

/-- C4: HTML first bytes are treated as absent data at all three consumption
points.  An existing target file with an HTML signature is not trusted: the
download path runs (at least one network request is made) instead of the file
being returned; a download can only return successfully when the file finally
on disk at the returned path is not HTML (the post-download verification
raises otherwise); and loading a local HTML file yields the empty frame, never
the HTML content. -/
theorem claimC4 :
    (∀ (fs : String → Option String) (prim sec : Except PyErr HttpResp) (g : Bool)
       (dd fn c : String), fs (dd ++ "/" ++ fn) = some c → isHtmlContent c = true →
      (download_pam50_from_url fs prim sec g dd fn).requests ≠ []) ∧
    (∀ (fs : String → Option String) (prim sec : Except PyErr HttpResp) (g : Bool)
       (dd fn p : String), (download_pam50_from_url fs prim sec g dd fn).result = .ok p →
      ∃ c, (download_pam50_from_url fs prim sec g dd fn).fsAfter p = some c ∧
        isHtmlContent c = false) ∧
    (∀ (fs : String → Option String) (p c : String), fs p = some c → isHtmlContent c = true →
      load_pam50_from_file fs p = .ok emptyFrame) := by
  refine ⟨?_, ?_, ?_⟩
  · intro fs prim sec g dd fn c hex hh
    have hb : download_pam50_from_url fs prim sec g dd fn
        = downloadBody fs prim sec g (dd ++ "/" ++ fn) := by
      simp [download_pam50_from_url, hex, hh]
    rw [hb]
    exact downloadBody_requests_ne fs prim sec g _
  · intro fs prim sec g dd fn p hres
    cases hex : fs (dd ++ "/" ++ fn) with
    | none =>
      have hb : download_pam50_from_url fs prim sec g dd fn
          = downloadBody fs prim sec g (dd ++ "/" ++ fn) := by
        simp [download_pam50_from_url, hex]
      rw [hb] at hres ⊢
      exact downloadBody_ok fs prim sec g _ p hres
    | some c =>
      by_cases hh : isHtmlContent c
      · have hb : download_pam50_from_url fs prim sec g dd fn
            = downloadBody fs prim sec g (dd ++ "/" ++ fn) := by
          simp [download_pam50_from_url, hex, hh]
        rw [hb] at hres ⊢
        exact downloadBody_ok fs prim sec g _ p hres
      · have hb : download_pam50_from_url fs prim sec g dd fn
            = ⟨.ok (dd ++ "/" ++ fn), fs, []⟩ := by
          simp [download_pam50_from_url, hex, hh]
        rw [hb] at hres ⊢
        injection hres with h2
        subst h2
        exact ⟨c, hex, by simpa using hh⟩
  · intro fs p c hfs hh
    simp [load_pam50_from_file, hfs, hh]

theorem pam50Method4_ok (autoDownload : Bool) (fs : String → Option String)
    (primary secondary : Except PyErr HttpResp) (dataDir : String) :
    ∃ out, pam50Method4 autoDownload fs primary secondary dataDir = .ok out := by
  unfold pam50Method4
  by_cases ha : autoDownload = true
  · rw [if_pos ha]
    cases hdl : (download_pam50_from_url fs primary secondary false dataDir
        "BRCA.547.PAM50.SigClust.Subtypes.txt").result with
    | error e => exact ⟨.emptyOut, by simp [hdl]⟩
    | ok p =>
      cases hld : load_pam50_from_file (download_pam50_from_url fs primary secondary false
          dataDir "BRCA.547.PAM50.SigClust.Subtypes.txt").fsAfter p with
      | ok df => exact ⟨.fromFile df, by simp [hdl, hld]⟩
      | error e => exact ⟨.emptyOut, by simp [hdl, hld]⟩
  · rw [if_neg ha]
    exact ⟨.emptyOut, rfl⟩

/-- C1: for the file-manifest and clinical-data queries, a response object
whose data key is missing, or whose data value is an object without a hits
key, raises a ValueError instead of returning an empty table; by contrast
`get_pam50_subtypes` never raises for any query outcomes, any filesystem and
any download outcomes — it always returns a frame, at worst the empty one. -/
theorem claimC1 (fsj : List (String × Json))
    (h : List.lookup "data" fsj = none ∨
      ∃ gs, List.lookup "data" fsj = some (.obj gs) ∧ List.lookup "hits" gs = none) :
    get_file_manifest (.obj fsj) = .error (.valueError "No files found in GDC response") ∧
    get_clinical_data (.obj fsj) = .error (.valueError "No cases found in GDC response") ∧
    (∀ (m1 m2 m3 : Except PyErr Json) (autoDL : Bool) (fs : String → Option String)
       (prim sec : Except PyErr HttpResp) (dd : String),
      ∃ out, get_pam50_subtypes m1 m2 m3 autoDL fs prim sec dd = .ok out) := by
  refine ⟨?_, ?_, ?_⟩
  · rcases h with h1 | ⟨gs, h1, h2⟩
    · simp [get_file_manifest, pyIn, h1, ok_bind]
    · simp [get_file_manifest, pyIn, pySub, h1, h2, ok_bind]
  · rcases h with h1 | ⟨gs, h1, h2⟩
    · simp [get_clinical_data, pyIn, h1, ok_bind]
    · simp [get_clinical_data, pyIn, pySub, h1, h2, ok_bind]
  · intro m1 m2 m3 autoDL fs prim sec dd
    cases hm : pam50Method1 m1 with
    | ok o =>
      cases o with
      | some anns => exact ⟨.fromAnns anns, by simp [get_pam50_subtypes, hm]⟩
      | none =>
        obtain ⟨out, hout⟩ := pam50Method4_ok autoDL fs prim sec dd
        exact ⟨out, by simp [get_pam50_subtypes, hm, hout]⟩
    | error e =>
      obtain ⟨out, hout⟩ := pam50Method4_ok autoDL fs prim sec dd
      exact ⟨out, by simp [get_pam50_subtypes, hm, hout]⟩

/-- Closed instantiation of C1, on the empty response object. -/
theorem claimC1_witness :
    get_file_manifest (.obj []) = .error (.valueError "No files found in GDC response") ∧
    get_clinical_data (.obj []) = .error (.valueError "No cases found in GDC response") ∧
    (∀ (m1 m2 m3 : Except PyErr Json) (autoDL : Bool) (fs : String → Option String)
       (prim sec : Except PyErr HttpResp) (dd : String),
      ∃ out, get_pam50_subtypes m1 m2 m3 autoDL fs prim sec dd = .ok out) :=
  claimC1 [] (Or.inl rfl)

/-- Closed instantiation of C4. -/
theorem claimC4_witness :
    (download_pam50_from_url fsHtmlW respDataW respDataW false "data" "f.txt").requests ≠ [] ∧
    (∃ c, (download_pam50_from_url fsNoneW respDataW respDataW false "data" "f.txt").fsAfter
        "data/f.txt" = some c ∧ isHtmlContent c = false) ∧
    load_pam50_from_file fsHtmlW "data/f.txt" = .ok emptyFrame := by
  refine ⟨?_, ?_, ?_⟩
  · exact claimC4.1 fsHtmlW respDataW respDataW false "data" "f.txt"
      "<html><body>err</body></html>" rfl rfl
  · exact claimC4.2.1 fsNoneW respDataW respDataW false "data" "f.txt" "data/f.txt" rfl
  · exact claimC4.2.2 fsHtmlW "data/f.txt" "<html><body>err</body></html>" rfl rfl

theorem c3RowBool (a b : String) :
    ((strStrip (cellToStr b) != "" && strLower (strStrip (cellToStr b)) != "nan")
      && !(cellIsNa a && cellIsNa b)) = !labelRemoved b := by
  by_cases hb : cellIsNa b
  · have h1 : strStrip "nan" = "nan" := rfl
    have h2 : strLower "nan" = "nan" := rfl
    simp [labelRemoved, cellToStr, hb, h1, h2]
  · simp [labelRemoved, cellToStr, hb, Bool.not_or, bne, Bool.and_comm]

theorem c3Pipeline (rl : List String)
    (hlen : ∀ r ∈ rl, (strSplitOnChar '\t' r).length = 2) :
    ((((rl.map (fun r => strSplitOnChar '\t' r)).filter (fun r => !r.all cellIsNa)).map
        (fun r => (strStrip (cellToStr (r.getD 0 "")), strStrip (cellToStr (r.getD 1 ""))))
      |>.filter (fun q => q.2 != "" && strLower q.2 != "nan")).map (fun q => [q.1, q.2]))
    = c3Expected rl := by
  rw [List.filter_map, List.map_map, List.filter_map, List.filter_map, List.map_map,
    List.filter_filter]
  unfold c3Expected
  refine congrArg _ (List.filter_congr ?_)
  intro r hr
  obtain ⟨a, b, hab⟩ := List.length_eq_two.mp (hlen r hr)
  simp only [Function.comp, hab, List.getD_cons_zero, List.getD_cons_succ,
    List.all_cons, List.all_nil, Bool.and_true]
  exact c3RowBool a b

/-- C3 as amended: on a tab-separated input whose header is exactly
Sample_ID and PAM50_Call and whose data rows are well-formed (two fields, no
comment characters, non-blank), the importer returns exactly the two columns
case_id and pam50_subtype; the rows are the input data rows minus those whose
label cell is a pandas NA token (empty, "nan"/"NaN" in any of pandas' default
spellings, "NULL", "NA", "None", ...) or trims to the empty string or to nan
case-insensitively, and both surviving cells are normalized to trimmed
strings. -/
theorem claimC3 (fs : String → Option String) (p content : String) (rows : List String)
    (hfs : fs p = some content)
    (hhtml : isHtmlContent content = false)
    (hsplit : strSplitOnChar '\n' content = "Sample_ID\tPAM50_Call" :: rows)
    (hrows : ∀ r ∈ rows, stripComment r = r ∧ r ≠ "" ∧ (strSplitOnChar '\t' r).length = 2) :
    load_pam50_from_file fs p = .ok ⟨["case_id", "pam50_subtype"], c3Expected rows⟩ := by
  have hlines : parseLines content = "Sample_ID\tPAM50_Call" :: rows := by
    unfold parseLines
    rw [hsplit, List.map_cons]
    have hhd : stripComment "Sample_ID\tPAM50_Call" = "Sample_ID\tPAM50_Call" := rfl
    rw [hhd, listMapId stripComment rows (fun r hr => (hrows r hr).1)]
    refine listFilterAll _ _ ?_
    intro x hx
    rcases List.mem_cons.mp hx with hx1 | hx2
    · subst hx1; rfl
    · exact bne_iff_ne.mpr (hrows x hx2).2.1
  have hsep : readCsvSep '\t' content
      = .ok ⟨["Sample_ID", "PAM50_Call"], rows.map (fun r => strSplitOnChar '\t' r)⟩ := by
    unfold readCsvSep
    rw [hlines]
    dsimp only
    have hcols : strSplitOnChar '\t' "Sample_ID\tPAM50_Call" = ["Sample_ID", "PAM50_Call"] := rfl
    simp only [hcols, Except.ok.injEq, DataFrame.mk.injEq]
    refine ⟨trivial, ?_⟩
    refine listFilterMapSome _ _ rows ?_
    intro r hr
    have hl2 := (hrows r hr).2.2
    simp [hl2]
  have hnorm : normalizeSelected (dropAllNa (DataFrame.mk ["Sample_ID", "PAM50_Call"]
      (rows.map (fun r => strSplitOnChar '\t' r)))) "Sample_ID" "PAM50_Call"
      = DataFrame.mk ["case_id", "pam50_subtype"] (c3Expected rows) := by
    show DataFrame.mk ["case_id", "pam50_subtype"]
        ((((rows.map (fun r => strSplitOnChar '\t' r)).filter (fun r => !r.all cellIsNa)).map
            (fun r => (strStrip (cellToStr (r.getD 0 "")), strStrip (cellToStr (r.getD 1 ""))))
          |>.filter (fun q => q.2 != "" && strLower q.2 != "nan")).map (fun q => [q.1, q.2]))
        = DataFrame.mk ["case_id", "pam50_subtype"] (c3Expected rows)
    rw [c3Pipeline rows (fun r hr => (hrows r hr).2.2)]
  have hparse : loadParse content = .ok ⟨["case_id", "pam50_subtype"], c3Expected rows⟩ := by
    unfold loadParse
    rw [hsep, ok_bind]
    show Except.ok (normalizeSelected (dropAllNa (DataFrame.mk ["Sample_ID", "PAM50_Call"]
        (rows.map (fun r => strSplitOnChar '\t' r)))) "Sample_ID" "PAM50_Call")
      = Except.ok (DataFrame.mk ["case_id", "pam50_subtype"] (c3Expected rows))
    rw [hnorm]
  have hred : load_pam50_from_file fs p
      = match loadParse content with
        | .ok df => .ok df
        | .error _ => .ok emptyFrame := by
    simp [load_pam50_from_file, hfs, hhtml]
  rw [hred, hparse]

/-- Closed instantiation of the amended C3: of three data rows, the row whose
label is literally nan and the row whose label trims away are dropped and the
surviving cells are trimmed. -/
theorem claimC3_witness :
    load_pam50_from_file fsPamW "pam50.txt"
      = .ok ⟨["case_id", "pam50_subtype"],
             c3Expected ["TCGA-01\tLumA", "TCGA-02\tnan", "TCGA-03\t  Basal "]⟩ ∧
    c3Expected ["TCGA-01\tLumA", "TCGA-02\tnan", "TCGA-03\t  Basal "]
      = [["TCGA-01", "LumA"], ["TCGA-03", "Basal"]] := by
  constructor
  · exact claimC3 fsPamW "pam50.txt" pam50ContentW
      ["TCGA-01\tLumA", "TCGA-02\tnan", "TCGA-03\t  Basal "] rfl rfl rfl (by decide)
  · rfl

/-- C3 as stated is false at this input: the data row with label NULL is
neither empty nor the text nan in any letter case, yet the importer drops it
(pandas parses NULL as NaN and `astype(str)` then prints it as nan), so the
returned row count is 1, not the 2 the claim predicts. -/
theorem claimC3_cex :
    fsNullW "pam50.txt" = some "Sample_ID\tPAM50_Call\nS1\tNULL\nS2\tLumA" ∧
    load_pam50_from_file fsNullW "pam50.txt"
      = .ok ⟨["case_id", "pam50_subtype"], [["S2", "LumA"]]⟩ ∧
    strStrip "NULL" ≠ "" ∧ strLower (strStrip "NULL") ≠ "nan" :=
  ⟨rfl, rfl, by decide, by decide⟩

end TCGA
